import Mathlib

/-!
Shallow embedding of `comtypes/client/dynamic.py`: a dynamic-dispatch proxy
over a COM/Automation foreign object.  Pure Python values become `Value`,
COM HRESULT errors become `ComError`, the foreign `IDispatch` object becomes
a record of pure functions (`ForeignObj`), and each proxy operation is a pure
function returning its result together with the updated proxy state and the
trace of foreign calls it performed.
-/

set_option autoImplicit false

namespace ComtypesDynamic

/-- A Python value as seen by the proxy layer: `None`, an integer, a string,
or a reference to a COM object (identified here by a numeric handle). -/
inductive Value where
  | vNone
  | vInt (n : Int)
  | vStr (s : String)
  | vObj (ref : Nat)
deriving DecidableEq, Repr

/-- A `COMError` as raised by comtypes: an HRESULT code plus text and details.
`details` is kept abstract as a string. -/
structure ComError where
  hresult : Int
  text : String
  details : String
deriving DecidableEq, Repr

/-- The invocation kinds used by `dynamic.py`: `DISPATCH_METHOD`,
`DISPATCH_PROPERTYGET`, `DISPATCH_PROPERTYPUT`, `DISPATCH_PROPERTYPUTREF`. -/
inductive InvKind where
  | methodCall
  | propertyGet
  | propertyPut
  | propertyPutRef
deriving DecidableEq, Repr

/-- HRESULT `hres.DISP_E_MEMBERNOTFOUND` (0x80020003 as a signed 32-bit integer).
The numeric constants live in `comtypes/hresult.py`; they are the standard
Windows HRESULT values. -/
def DISP_E_MEMBERNOTFOUND : Int := -2147352573

/-- HRESULT `hres.DISP_E_BADPARAMCOUNT` (0x8002000E as a signed 32-bit integer). -/
def DISP_E_BADPARAMCOUNT : Int := -2147352562

/-- HRESULT `hres.DISP_E_PARAMNOTOPTIONAL` (0x8002000F as a signed 32-bit integer). -/
def DISP_E_PARAMNOTOPTIONAL : Int := -2147352561

/-- HRESULT `hres.DISP_E_TYPEMISMATCH` (0x80020005 as a signed 32-bit integer). -/
def DISP_E_TYPEMISMATCH : Int := -2147352571

/-- HRESULT `hres.E_INVALIDARG` (0x80070057 as a signed 32-bit integer). -/
def E_INVALIDARG : Int := -2147024809

/-- The `ERRORS_BAD_CONTEXT` list of `dynamic.py`: these errors generally mean
the property or method exists but cannot be used in this context. -/
def ERRORS_BAD_CONTEXT : List Int :=
  [DISP_E_MEMBERNOTFOUND,
   DISP_E_BADPARAMCOUNT,
   DISP_E_PARAMNOTOPTIONAL,
   DISP_E_TYPEMISMATCH,
   E_INVALIDARG]

/-- The foreign COM object behind the proxy, as a deterministic test double:
`GetIDsOfNames` resolves a member name to a dispid, `Invoke` performs an
invocation of a given kind and either returns a value or raises a `COMError`,
and `enumItems` is the sequence produced by the object's default enumerable
capability (`DISPID_NEWENUM`). -/
structure ForeignObj where
  getIDsOfNames : String → Int
  invoke : Int → InvKind → List Value → Except ComError Value
  enumItems : List Value

/-- One foreign call made by the proxy, for counting and ordering calls:
either a `GetIDsOfNames` resolution or an `Invoke` of some kind. -/
inductive FCall where
  | resolve (name : String)
  | invoke (id : Int) (kind : InvKind) (args : List Value)
deriving DecidableEq, Repr

/-- Is this foreign call a `GetIDsOfNames` resolution? -/
def FCall.isResolve : FCall → Bool
  | .resolve _ => true
  | .invoke _ _ _ => false

/-- Is this foreign call an `Invoke`? -/
def FCall.isInvoke : FCall → Bool
  | .resolve _ => false
  | .invoke _ _ _ => true

/-- A `MethodCaller` instance: holds the resolved dispid (`self._id`) and,
implicitly, the owning `_Dispatch` proxy (`self._obj`), which in this
embedding is the proxy on which the operation runs. -/
structure MethodCaller where
  _id : Int
deriving DecidableEq, Repr

/-- The mutable state of a `_Dispatch` instance: `_ids` is the
name-to-dispid cache, and `_dict` is the part of the instance `__dict__`
holding cached `MethodCaller` objects (stored by `__getattr__` via
`self.__dict__[name] = result`). -/
structure DispatchState where
  _ids : List (String × Int)
  _dict : List (String × MethodCaller)
deriving DecidableEq, Repr

/-- The state of a fresh `_Dispatch` instance: both caches empty. -/
def initState : DispatchState := ⟨[], []⟩

/-- Python `dict.get` on an association list. -/
def lookupAssoc {α : Type} : List (String × α) → String → Option α
  | [], _ => none
  | (k, v) :: rest, key => if k = key then some v else lookupAssoc rest key

/-- Python `dict[key] = value` on an association list: replace if present,
else append. -/
def insertAssoc {α : Type} : List (String × α) → String → α → List (String × α)
  | [], key, value => [(key, value)]
  | (k, v) :: rest, key, value =>
      if k = key then (key, value) :: rest
      else (k, v) :: insertAssoc rest key value

/-- Python falsiness of `dispid` in `if not dispid:`—true when the cache has
no entry (`None`) and also when the cached dispid is the integer `0`. -/
def pyFalsyId : Option Int → Bool
  | none => true
  | some d => d == 0

/-- The dispid-resolution prefix shared by `__getattr__` and `__setattr__`:

    dispid = self._ids.get(name)
    if not dispid:
        dispid = self._comobj.GetIDsOfNames(name)[0]
        self._ids[name] = dispid

Returns the dispid used, the updated state, and the foreign calls made. -/
def resolveDispid (fo : ForeignObj) (st : DispatchState) (name : String) :
    Int × DispatchState × List FCall :=
  let cached := lookupAssoc st._ids name
  if pyFalsyId cached then
    let dispid := fo.getIDsOfNames name
    (dispid, { st with _ids := insertAssoc st._ids name dispid }, [.resolve name])
  else
    (cached.getD 0, st, [])

/-- What a Python attribute read on the proxy produces: either a plain value
(the property's value) or a cached/new `MethodCaller`. -/
inductive AttrResult where
  | value (v : Value)
  | bound (m : MethodCaller)
deriving DecidableEq, Repr

/-- Attribute read `proxy.name`.  Python first consults the instance
`__dict__` (where `__getattr__` caches `MethodCaller`s); only on a miss does
it call `_Dispatch.__getattr__`, which resolves the dispid, attempts a
`DISPATCH_PROPERTYGET` invoke, and on a `COMError` whose HRESULT is in
`ERRORS_BAD_CONTEXT` builds and caches a `MethodCaller`; any other `COMError`
is re-raised. -/
def getattrOp (fo : ForeignObj) (st : DispatchState) (name : String) :
    Except ComError AttrResult × DispatchState × List FCall :=
  match lookupAssoc st._dict name with
  | some m => (.ok (.bound m), st, [])
  | none =>
      let (dispid, st1, tr1) := resolveDispid fo st name
      match fo.invoke dispid .propertyGet [] with
      | .ok v => (.ok (.value v), st1, tr1 ++ [.invoke dispid .propertyGet []])
      | .error e =>
          if e.hresult ∈ ERRORS_BAD_CONTEXT then
            let result : MethodCaller := ⟨dispid⟩
            (.ok (.bound result),
             { st1 with _dict := insertAssoc st1._dict name result },
             tr1 ++ [.invoke dispid .propertyGet []])
          else
            (.error e, st1, tr1 ++ [.invoke dispid .propertyGet []])

/-- Embeds `_Dispatch.__setattr__`: resolve the dispid, attempt
`DISPATCH_PROPERTYPUT`; if that raises a `COMError` with HRESULT exactly
`DISP_E_MEMBERNOTFOUND`, retry once as `DISPATCH_PROPERTYPUTREF`; any other
`COMError` is re-raised.  The Python method returns whatever `Invoke`
returns. -/
def setattrOp (fo : ForeignObj) (st : DispatchState) (name : String)
    (value : Value) : Except ComError Value × DispatchState × List FCall :=
  let (dispid, st1, tr1) := resolveDispid fo st name
  match fo.invoke dispid .propertyPut [value] with
  | .ok v => (.ok v, st1, tr1 ++ [.invoke dispid .propertyPut [value]])
  | .error err =>
      if err.hresult = DISP_E_MEMBERNOTFOUND then
        (fo.invoke dispid .propertyPutRef [value], st1,
         tr1 ++ [.invoke dispid .propertyPut [value],
                 .invoke dispid .propertyPutRef [value]])
      else
        (.error err, st1, tr1 ++ [.invoke dispid .propertyPut [value]])

/-- Python attribute-assignment statement semantics: `proxy.name = value`
calls `__setattr__` and discards its return value, so a successful assignment
produces no value for the caller. -/
def setattrStmt (fo : ForeignObj) (st : DispatchState) (name : String)
    (value : Value) : Except ComError Unit × DispatchState × List FCall :=
  match setattrOp fo st name value with
  | (.ok _, st', tr) => (.ok (), st', tr)
  | (.error e, st', tr) => (.error e, st', tr)

/-- Modelled from the spec: `comtypes.automation.IDispatch.Invoke` (imported
by `dynamic.py` but not part of it) defaults the invocation kind to
METHOD-CALL (`DISPATCH_METHOD`) when `_invkind` is not passed, as in
`MethodCaller.__call__`. -/
def DEFAULT_INVKIND : InvKind := .methodCall

/-- Embeds `MethodCaller.__call__`: `self._obj._comobj.Invoke(self._id, *args)` with
the default invocation kind—a single METHOD-CALL invocation on the stored
dispid, whose result (or error) is returned as-is. -/
def MethodCaller.call (fo : ForeignObj) (m : MethodCaller)
    (args : List Value) : Except ComError Value × List FCall :=
  (fo.invoke m._id DEFAULT_INVKIND args, [.invoke m._id DEFAULT_INVKIND args])

/-- Embeds `MethodCaller.__getitem__`: a single `DISPATCH_PROPERTYGET` invocation on
the stored dispid with the indices as arguments. -/
def MethodCaller.getItem (fo : ForeignObj) (m : MethodCaller)
    (args : List Value) : Except ComError Value × List FCall :=
  (fo.invoke m._id .propertyGet args, [.invoke m._id .propertyGet args])

/-- Modelled from the spec: `comtypes._is_object` (imported by `dynamic.py`
but not part of it) tests whether a value is itself an object reference
rather than a plain scalar. -/
def _is_object : Value → Bool
  | .vObj _ => true
  | _ => false

/-- Embeds `MethodCaller.__setitem__`: inspect `args[-1]` (the value being
assigned); if it is an object reference perform one
`DISPATCH_PROPERTYPUTREF` invocation, otherwise one `DISPATCH_PROPERTYPUT`
invocation—decided eagerly, with no failure-driven retry. -/
def MethodCaller.setItem (fo : ForeignObj) (m : MethodCaller)
    (args : List Value) : Except ComError Value × List FCall :=
  if _is_object (args.getLastD .vNone) then
    (fo.invoke m._id .propertyPutRef args, [.invoke m._id .propertyPutRef args])
  else
    (fo.invoke m._id .propertyPut args, [.invoke m._id .propertyPut args])

/-- One foreign call made through the enumeration capability: acquiring a
fresh enumerator (`Invoke(-4)` i.e. `DISPID_NEWENUM`, then
`QueryInterface(IEnumVARIANT)`), an `IEnumVARIANT.Skip`, or an
`IEnumVARIANT.Next(1)`. -/
inductive ECall where
  | acquire
  | skip (n : Int) (hr : Int)
  | next (fetched : Bool)
deriving DecidableEq, Repr

/-- Is this enumeration call an enumerator acquisition? -/
def ECall.isAcquire : ECall → Bool
  | .acquire => true
  | _ => false

/-- An `IEnumVARIANT` enumerator: a forward-only cursor, represented by the
items not yet consumed.  A freshly acquired enumerator holds the foreign
object's whole enumeration sequence. -/
structure EnumVARIANT where
  remaining : List Value
deriving DecidableEq, Repr

/-- Embeds `IEnumVARIANT.Skip(n)`: skip over the next `n` elements; returns `S_OK`
(0) when all `n` could be skipped and `S_FALSE` (1) otherwise (positioning at
the end either way). -/
def EnumVARIANT.Skip (e : EnumVARIANT) (n : Int) : Int × EnumVARIANT :=
  if n ≤ (e.remaining.length : Int) then (0, ⟨e.remaining.drop n.toNat⟩)
  else (1, ⟨[]⟩)

/-- Embeds `IEnumVARIANT.Next(1)`: fetch one element; returns the element and a
fetched count of 1, or a fetched count of 0 when the enumerator is
exhausted. -/
def EnumVARIANT.Next1 (e : EnumVARIANT) : Value × Bool × EnumVARIANT :=
  match e.remaining with
  | [] => (.vNone, false, ⟨[]⟩)
  | x :: xs => (x, true, ⟨xs⟩)

/-- Embeds `_Dispatch.__enum`: `self._comobj.Invoke(-4)` (DISPID_NEWENUM) followed
by `QueryInterface(IEnumVARIANT)`—acquires one fresh enumerator positioned at
the start of the foreign object's enumeration sequence. -/
def dispEnum (fo : ForeignObj) : EnumVARIANT × List ECall :=
  (⟨fo.enumItems⟩, [.acquire])

/-- Embeds `_Dispatch.__getitem__(index)`: acquire a fresh enumerator; if
`index > 0`, `Skip(index)` and raise `IndexError` when `Skip` does not
return 0; then `Next(1)` and raise `IndexError` when nothing was fetched,
else return the fetched item. -/
def dispGetItem (fo : ForeignObj) (index : Int) :
    Except String Value × List ECall :=
  let (enum0, tr0) := dispEnum fo
  if index > 0 then
    let (hr, enum1) := enum0.Skip index
    if hr ≠ 0 then
      (.error "index out of range", tr0 ++ [.skip index hr])
    else
      let (item, fetched, _) := enum1.Next1
      if fetched then (.ok item, tr0 ++ [.skip index hr, .next fetched])
      else (.error "index out of range", tr0 ++ [.skip index hr, .next fetched])
  else
    let (item, fetched, _) := enum0.Next1
    if fetched then (.ok item, tr0 ++ [.next fetched])
    else (.error "index out of range", tr0 ++ [.next fetched])

/-- A `_Collection` instance: the iterator returned by
`_Dispatch.__iter__`, wrapping one enumerator. -/
structure _Collection where
  enum : EnumVARIANT
deriving DecidableEq, Repr

/-- Embeds `_Dispatch.__iter__`: wrap a freshly acquired enumerator in a
`_Collection`. -/
def dispIter (fo : ForeignObj) : _Collection × List ECall :=
  let (e, tr) := dispEnum fo
  (⟨e⟩, tr)

/-- Embeds `_Collection.next`: `item, fetched = self.enum.Next(1)`; return the item
when fetched, else raise `StopIteration` (here: `none`).  Exactly one
foreign `Next` call per invocation. -/
def _Collection.next (c : _Collection) :
    Option Value × _Collection × List ECall :=
  let (item, fetched, e') := c.enum.Next1
  if fetched then (some item, ⟨e'⟩, [.next fetched])
  else (none, ⟨e'⟩, [.next fetched])

/-- The Python for-loop protocol over a `_Collection`: call `next()`
repeatedly, collecting items, until `StopIteration`; after the exhaustion
signal the loop stops and makes no further calls.  Returns the items yielded
and the full trace of foreign calls made by the loop. -/
def runForLoopAux : List Value → List Value × List ECall
  | [] => ([], [.next false])
  | x :: xs =>
      let (ys, tr) := runForLoopAux xs
      (x :: ys, .next true :: tr)

/-- Run the for-loop protocol on a collection (recursing over the
enumerator's remaining items, which is exactly what repeated
`_Collection.next` consumes). -/
def runForLoop (c : _Collection) : List Value × List ECall :=
  runForLoopAux c.enum.remaining

/-- A Python object as seen by `Dispatch`: a `_Dispatch` instance (holding
its COM object handle and its cache state), a raw
`ctypes.POINTER(comtypes.automation.IDispatch)` reference, or anything
else. -/
inductive PyObj where
  | dispatchObj (comobj : Nat) (st : DispatchState)
  | idispatchPointer (comobj : Nat)
  | otherObj (v : Value)
deriving DecidableEq, Repr

/-- Is this object a `_Dispatch` instance? -/
def PyObj.isDispatchInstance : PyObj → Bool
  | .dispatchObj _ _ => true
  | _ => false

/-- Embeds `Dispatch(obj)`: if `obj` is already a `_Dispatch`, return it unchanged;
if it is a raw `POINTER(IDispatch)`, construct a new `_Dispatch` around it
(`__init__` sets `_comobj` to the pointer and `_ids` to an empty dict);
anything else is returned unchanged. -/
def Dispatch : PyObj → PyObj
  | .dispatchObj comobj st => .dispatchObj comobj st
  | .idispatchPointer comobj => .dispatchObj comobj initState
  | .otherObj v => .otherObj v

/-! ## Helper lemmas -/

theorem lookupAssoc_insert_self {α : Type} (l : List (String × α)) (k : String)
    (v : α) : lookupAssoc (insertAssoc l k v) k = some v := by
  induction l with
  | nil => simp [insertAssoc, lookupAssoc]
  | cons p rest ih =>
    obtain ⟨k', v'⟩ := p
    by_cases h : k' = k
    · simp [insertAssoc, lookupAssoc, h]
    · simp [insertAssoc, lookupAssoc, h, ih]

theorem resolveDispid_cached (fo : ForeignObj) (st : DispatchState)
    (name : String) (d : Int) (hc : lookupAssoc st._ids name = some d)
    (hnz : d ≠ 0) : resolveDispid fo st name = (d, st, []) := by
  unfold resolveDispid
  rw [hc]
  have : pyFalsyId (some d) = false := by
    simp [pyFalsyId, hnz]
  simp [this, Option.getD]

theorem resolveDispid_dict (fo : ForeignObj) (st : DispatchState)
    (name : String) : ((resolveDispid fo st name).2.1)._dict = st._dict := by
  unfold resolveDispid
  by_cases h : pyFalsyId (lookupAssoc st._ids name)
  · simp [h]
  · simp [h]

/-- Does every foreign call in the trace use dispid `d` through `Invoke`
(in particular, the trace contains no `GetIDsOfNames` resolution)? -/
def usesOnlyDispid (d : Int) (tr : List FCall) : Bool :=
  tr.all fun c =>
    match c with
    | .invoke i _ _ => i == d
    | .resolve _ => false

/-! ## C6: wrap idempotence -/

/-- C6: `Dispatch` is idempotent—applied to an object that is already a
`_Dispatch` instance it returns that object unchanged, and applied to a raw
`POINTER(IDispatch)` reference it constructs a new `_Dispatch` proxy around
the same COM object with fresh empty caches. -/
theorem C6_dispatch_wrap_idempotent :
    (∀ (comobj : Nat) (st : DispatchState),
       Dispatch (.dispatchObj comobj st) = .dispatchObj comobj st) ∧
    (∀ comobj : Nat,
       Dispatch (.idispatchPointer comobj) = .dispatchObj comobj initState) :=
  ⟨fun _ _ => rfl, fun _ => rfl⟩

/-! ## C1: the name-to-dispid cache -/

/-- A foreign double whose `GetIDsOfNames` resolves every name to dispid `0`
(`DISPID_VALUE`, the default member—a legitimate dispid) and whose `Invoke`
always succeeds. -/
def foC1 : ForeignObj :=
  { getIDsOfNames := fun _ => 0
  , invoke := fun _ _ _ => .ok (.vInt 5)
  , enumItems := [] }

/-- C1 counterexample: when the first successful resolution returns dispid
`0`, the first `get` succeeds and stores `0` in the `_ids` cache, yet the
second `get` of the same name performs a second `GetIDsOfNames` resolution,
because `if not dispid:` treats the cached `0` as absent.  This refutes the
claim for "every possible identifier value returned by the first
resolution". -/
theorem C1_counterexample_zero_dispid :
    (getattrOp foC1 initState "Value").1 = .ok (.value (.vInt 5)) ∧
    ((getattrOp foC1 initState "Value").2.2).filter FCall.isResolve
      = [.resolve "Value"] ∧
    ((getattrOp foC1 ((getattrOp foC1 initState "Value").2.1) "Value").2.2).filter
        FCall.isResolve = [.resolve "Value"] := by
  refine ⟨rfl, rfl, rfl⟩

/-- C1 (amended): for every member name whose identifier resolution has
succeeded once with a NONZERO dispid, every subsequent attribute read or
write of that name on the same proxy uses the cached dispid and performs no
further `GetIDsOfNames` resolution; a name whose resolution returned dispid
`0` is re-resolved on every access, since the cache check `if not dispid:`
treats `0` as an empty cache entry. -/
theorem C1_cached_dispid_no_second_resolve (fo : ForeignObj)
    (st : DispatchState) (name : String) (d : Int) (v : Value)
    (hc : lookupAssoc st._ids name = some d) (hnz : d ≠ 0) :
    usesOnlyDispid d ((getattrOp fo st name).2.2) = true ∧
    usesOnlyDispid d ((setattrOp fo st name v).2.2) = true := by
  have hres : resolveDispid fo st name = (d, st, []) :=
    resolveDispid_cached fo st name d hc hnz
  constructor
  · unfold getattrOp
    rw [hres]
    cases hdict : lookupAssoc st._dict name with
    | some m => simp [usesOnlyDispid]
    | none =>
      cases hinv : fo.invoke d .propertyGet [] with
      | ok w => simp [hinv, usesOnlyDispid]
      | error e =>
        by_cases hmem : e.hresult ∈ ERRORS_BAD_CONTEXT
        · simp [hinv, hmem, usesOnlyDispid]
        · simp [hinv, hmem, usesOnlyDispid]
  · unfold setattrOp
    rw [hres]
    cases hinv : fo.invoke d .propertyPut [v] with
    | ok w => simp [hinv, usesOnlyDispid]
    | error e =>
      by_cases hmnf : e.hresult = DISP_E_MEMBERNOTFOUND
      · simp [hinv, hmnf, usesOnlyDispid]
      · simp [hinv, hmnf, usesOnlyDispid]

/-- A foreign double resolving every name to dispid `5`, with an `Invoke`
that always succeeds. -/
def foC1w : ForeignObj :=
  { getIDsOfNames := fun _ => 5
  , invoke := fun _ _ _ => .ok .vNone
  , enumItems := [] }

/-- A proxy state whose `_ids` cache already maps `"x"` to dispid `5`. -/
def stC1w : DispatchState := ⟨[("x", 5)], []⟩

/-- C1 witness: at a proxy whose cache maps `"x"` to the nonzero dispid `5`,
a read and a write of `"x"` perform only `Invoke` calls with dispid `5` and
no resolution. -/
theorem C1_cached_dispid_witness :
    lookupAssoc stC1w._ids "x" = some 5 ∧ (5 : Int) ≠ 0 ∧
    (usesOnlyDispid 5 ((getattrOp foC1w stC1w "x").2.2) = true ∧
     usesOnlyDispid 5 ((setattrOp foC1w stC1w "x" (.vInt 1)).2.2) = true) :=
  ⟨rfl, by decide,
   C1_cached_dispid_no_second_resolve foC1w stC1w "x" 5 (.vInt 1) rfl (by decide)⟩

/-! ## C2: GET failure in BAD_CONTEXT falls back to a cached MethodCaller -/

/-- C2: when the GET invocation for a (not yet bound) name fails with an
HRESULT in `ERRORS_BAD_CONTEXT`, the attribute read returns a `MethodCaller`
bound to the resolved dispid and caches it in the instance `__dict__`;
calling that `MethodCaller` performs one METHOD-CALL invocation on the same
dispid and returns its result; and a second read of the same name returns
the identical cached `MethodCaller` from `__dict__` with no foreign call at
all (in particular no second GET). -/
theorem C2_get_bad_context_fallback (fo : ForeignObj) (st st1 : DispatchState)
    (name : String) (d : Int) (tr1 : List FCall) (err : ComError)
    (args : List Value)
    (hdict : lookupAssoc st._dict name = none)
    (hres : resolveDispid fo st name = (d, st1, tr1))
    (hinv : fo.invoke d .propertyGet [] = .error err)
    (hmem : err.hresult ∈ ERRORS_BAD_CONTEXT) :
    getattrOp fo st name
      = (.ok (.bound ⟨d⟩),
         { st1 with _dict := insertAssoc st1._dict name ⟨d⟩ },
         tr1 ++ [.invoke d .propertyGet []]) ∧
    MethodCaller.call fo ⟨d⟩ args
      = (fo.invoke d .methodCall args, [.invoke d .methodCall args]) ∧
    getattrOp fo { st1 with _dict := insertAssoc st1._dict name ⟨d⟩ } name
      = (.ok (.bound ⟨d⟩),
         { st1 with _dict := insertAssoc st1._dict name ⟨d⟩ }, []) := by
  refine ⟨?_, rfl, ?_⟩
  · unfold getattrOp
    rw [hdict, hres]
    simp [hinv, hmem]
  · unfold getattrOp
    rw [lookupAssoc_insert_self]

/-- A foreign double for C2: every name resolves to dispid `7`; GET
invocations fail with `DISP_E_MEMBERNOTFOUND` (a BAD_CONTEXT code); every
other invocation kind returns `42`. -/
def foC2 : ForeignObj :=
  { getIDsOfNames := fun _ => 7
  , invoke := fun _ kind _ =>
      match kind with
      | .propertyGet => .error ⟨DISP_E_MEMBERNOTFOUND, "bad", "ctx"⟩
      | _ => .ok (.vInt 42)
  , enumItems := [] }

/-- The `COMError` the C2 double raises on GET. -/
def errC2 : ComError := ⟨DISP_E_MEMBERNOTFOUND, "bad", "ctx"⟩

/-- The proxy state after the C2 double resolves `"Foo"`. -/
def stC2a : DispatchState := ⟨[("Foo", 7)], []⟩

/-- C2 witness: on the concrete double, `proxy.Foo` returns a cached
`MethodCaller` whose call with `(1, 2)` yields the double's METHOD-CALL
result, and a second read returns the same cached object with no foreign
calls. -/
theorem C2_get_bad_context_fallback_witness :
    lookupAssoc initState._dict "Foo" = none ∧
    resolveDispid foC2 initState "Foo" = (7, stC2a, [.resolve "Foo"]) ∧
    foC2.invoke 7 .propertyGet [] = .error errC2 ∧
    errC2.hresult ∈ ERRORS_BAD_CONTEXT ∧
    (getattrOp foC2 initState "Foo"
       = (.ok (.bound ⟨7⟩),
          { stC2a with _dict := insertAssoc stC2a._dict "Foo" ⟨7⟩ },
          [.resolve "Foo"] ++ [.invoke 7 .propertyGet []]) ∧
     MethodCaller.call foC2 ⟨7⟩ [.vInt 1, .vInt 2]
       = (foC2.invoke 7 .methodCall [.vInt 1, .vInt 2],
          [.invoke 7 .methodCall [.vInt 1, .vInt 2]]) ∧
     getattrOp foC2 { stC2a with _dict := insertAssoc stC2a._dict "Foo" ⟨7⟩ } "Foo"
       = (.ok (.bound ⟨7⟩),
          { stC2a with _dict := insertAssoc stC2a._dict "Foo" ⟨7⟩ }, [])) :=
  ⟨rfl, rfl, rfl, by decide,
   C2_get_bad_context_fallback foC2 initState stC2a "Foo" 7 [.resolve "Foo"]
     errC2 [.vInt 1, .vInt 2] rfl rfl rfl (by decide)⟩

/-! ## C3: GET failure outside BAD_CONTEXT propagates verbatim -/

/-- C3: when the GET invocation for a (not yet bound) name fails with an
HRESULT outside `ERRORS_BAD_CONTEXT`, the attribute read re-raises the very
same `COMError` (same code, text and details) and neither constructs nor
caches a `MethodCaller`: the instance `__dict__` is unchanged. -/
theorem C3_get_fatal_propagates (fo : ForeignObj) (st st1 : DispatchState)
    (name : String) (d : Int) (tr1 : List FCall) (err : ComError)
    (hdict : lookupAssoc st._dict name = none)
    (hres : resolveDispid fo st name = (d, st1, tr1))
    (hinv : fo.invoke d .propertyGet [] = .error err)
    (hmem : err.hresult ∉ ERRORS_BAD_CONTEXT) :
    getattrOp fo st name
      = (.error err, st1, tr1 ++ [.invoke d .propertyGet []]) ∧
    ((getattrOp fo st name).2.1)._dict = st._dict := by
  have hd : st1._dict = st._dict := by
    have := resolveDispid_dict fo st name
    rw [hres] at this
    exact this
  constructor
  · unfold getattrOp
    rw [hdict, hres]
    simp [hinv, hmem]
  · unfold getattrOp
    rw [hdict, hres]
    simp [hinv, hmem, hd]

/-- HRESULT `E_FAIL` (0x80004005 as a signed 32-bit integer), a fatal HRESULT
outside `ERRORS_BAD_CONTEXT`. -/
def E_FAIL : Int := -2147467259

/-- A foreign double for C3: every name resolves to dispid `3`; GET
invocations fail with the fatal `E_FAIL`. -/
def foC3 : ForeignObj :=
  { getIDsOfNames := fun _ => 3
  , invoke := fun _ kind _ =>
      match kind with
      | .propertyGet => .error ⟨E_FAIL, "fatal", "diag"⟩
      | _ => .ok .vNone
  , enumItems := [] }

/-- The `COMError` the C3 double raises on GET. -/
def errC3 : ComError := ⟨E_FAIL, "fatal", "diag"⟩

/-- C3 witness: on the concrete double, `proxy.Baz` raises the double's
exact `COMError` and caches no `MethodCaller`. -/
theorem C3_get_fatal_propagates_witness :
    lookupAssoc initState._dict "Baz" = none ∧
    resolveDispid foC3 initState "Baz" = (3, ⟨[("Baz", 3)], []⟩, [.resolve "Baz"]) ∧
    foC3.invoke 3 .propertyGet [] = .error errC3 ∧
    errC3.hresult ∉ ERRORS_BAD_CONTEXT ∧
    (getattrOp foC3 initState "Baz"
       = (.error errC3, ⟨[("Baz", 3)], []⟩,
          [.resolve "Baz"] ++ [.invoke 3 .propertyGet []]) ∧
     ((getattrOp foC3 initState "Baz").2.1)._dict = initState._dict) :=
  ⟨rfl, rfl, rfl, by decide,
   C3_get_fatal_propagates foC3 initState ⟨[("Baz", 3)], []⟩ "Baz" 3
     [.resolve "Baz"] errC3 rfl rfl rfl (by decide)⟩

/-! ## C4: PUT-VALUE first, PUT-REFERENCE retry only on DISP_E_MEMBERNOTFOUND -/

theorem resolveDispid_trace_invokes (fo : ForeignObj) (st : DispatchState)
    (name : String) :
    ((resolveDispid fo st name).2.2).filter FCall.isInvoke = [] := by
  unfold resolveDispid
  by_cases h : pyFalsyId (lookupAssoc st._ids name)
  · simp [h, FCall.isInvoke]
  · simp [h]

/-- C4: an attribute write attempts exactly one PUT-VALUE invocation first;
if and only if that fails with exactly `DISP_E_MEMBERNOTFOUND` does exactly
one PUT-REFERENCE invocation follow (whose outcome becomes the operation's
result); a PUT-VALUE failure with any other HRESULT propagates with no
PUT-REFERENCE attempt. -/
theorem C4_set_put_then_putref (fo : ForeignObj) (st st1 : DispatchState)
    (name : String) (v : Value) (d : Int) (tr1 : List FCall)
    (hres : resolveDispid fo st name = (d, st1, tr1)) :
    (∀ w, fo.invoke d .propertyPut [v] = .ok w →
       (setattrOp fo st name v).1 = .ok w ∧
       ((setattrOp fo st name v).2.2).filter FCall.isInvoke
         = [.invoke d .propertyPut [v]]) ∧
    (∀ err, fo.invoke d .propertyPut [v] = .error err →
       err.hresult = DISP_E_MEMBERNOTFOUND →
       (setattrOp fo st name v).1 = fo.invoke d .propertyPutRef [v] ∧
       ((setattrOp fo st name v).2.2).filter FCall.isInvoke
         = [.invoke d .propertyPut [v], .invoke d .propertyPutRef [v]]) ∧
    (∀ err, fo.invoke d .propertyPut [v] = .error err →
       err.hresult ≠ DISP_E_MEMBERNOTFOUND →
       (setattrOp fo st name v).1 = .error err ∧
       ((setattrOp fo st name v).2.2).filter FCall.isInvoke
         = [.invoke d .propertyPut [v]]) := by
  have htr : tr1.filter FCall.isInvoke = [] := by
    have h := resolveDispid_trace_invokes fo st name
    rw [hres] at h
    exact h
  refine ⟨?_, ?_, ?_⟩
  · intro w hput
    unfold setattrOp
    rw [hres]
    simp [hput, htr, FCall.isInvoke]
  · intro err hput hmnf
    unfold setattrOp
    rw [hres]
    simp [hput, hmnf, htr, FCall.isInvoke]
  · intro err hput hmnf
    unfold setattrOp
    rw [hres]
    simp [hput, hmnf, htr, FCall.isInvoke]

/-- A foreign double for C4: every name resolves to dispid `4`; PUT-VALUE
invocations fail with `DISP_E_MEMBERNOTFOUND`; PUT-REFERENCE invocations
succeed. -/
def foC4 : ForeignObj :=
  { getIDsOfNames := fun _ => 4
  , invoke := fun _ kind _ =>
      match kind with
      | .propertyPut => .error ⟨DISP_E_MEMBERNOTFOUND, "notfound", "put"⟩
      | _ => .ok .vNone
  , enumItems := [] }

/-- The `COMError` the C4 double raises on PUT-VALUE. -/
def errC4 : ComError := ⟨DISP_E_MEMBERNOTFOUND, "notfound", "put"⟩

/-- C4 witness: on the concrete double, `proxy.Bar = 9` records exactly one
PUT-VALUE attempt followed by exactly one PUT-REFERENCE attempt and
succeeds with the PUT-REFERENCE result. -/
theorem C4_set_put_then_putref_witness :
    resolveDispid foC4 initState "Bar"
      = (4, ⟨[("Bar", 4)], []⟩, [.resolve "Bar"]) ∧
    foC4.invoke 4 .propertyPut [.vInt 9] = .error errC4 ∧
    errC4.hresult = DISP_E_MEMBERNOTFOUND ∧
    ((setattrOp foC4 initState "Bar" (.vInt 9)).1
       = foC4.invoke 4 .propertyPutRef [.vInt 9] ∧
     ((setattrOp foC4 initState "Bar" (.vInt 9)).2.2).filter FCall.isInvoke
       = [.invoke 4 .propertyPut [.vInt 9],
          .invoke 4 .propertyPutRef [.vInt 9]]) :=
  ⟨rfl, rfl, by decide,
   (C4_set_put_then_putref foC4 initState ⟨[("Bar", 4)], []⟩ "Bar" (.vInt 9) 4
      [.resolve "Bar"] rfl).2.1 errC4 rfl (by decide)⟩

/-! ## C8: a successful attribute write returns no value -/

/-- C8: whenever `__setattr__` succeeds (on the first PUT-VALUE attempt or
on the PUT-REFERENCE retry), the assignment statement `proxy.name = value`
produces no value for the caller—Python discards `__setattr__`'s return—and
its only effect is the foreign-call side effect (same state, same trace as
the underlying operation). -/
theorem C8_set_success_returns_no_value (fo : ForeignObj)
    (st : DispatchState) (name : String) (v r : Value)
    (h : (setattrOp fo st name v).1 = .ok r) :
    (setattrStmt fo st name v).1 = .ok () ∧
    (setattrStmt fo st name v).2 = (setattrOp fo st name v).2 := by
  unfold setattrStmt
  rcases hop : setattrOp fo st name v with ⟨res, st', tr⟩
  rw [hop] at h
  simp only at h
  subst h
  simp [hop]

/-- A foreign double for C8: every invocation succeeds, returning `None`. -/
def foC8 : ForeignObj :=
  { getIDsOfNames := fun _ => 8
  , invoke := fun _ _ _ => .ok .vNone
  , enumItems := [] }

/-- C8 witness: on the concrete always-succeeding double, the assignment
statement succeeds with no value and the same side-effect trace. -/
theorem C8_set_success_returns_no_value_witness :
    (setattrOp foC8 initState "X" (.vInt 9)).1 = .ok Value.vNone ∧
    ((setattrStmt foC8 initState "X" (.vInt 9)).1 = .ok () ∧
     (setattrStmt foC8 initState "X" (.vInt 9)).2
       = (setattrOp foC8 initState "X" (.vInt 9)).2) :=
  ⟨rfl, C8_set_success_returns_no_value foC8 initState "X" (.vInt 9)
          Value.vNone rfl⟩

/-! ## C9: indexed set on a bound member chooses its PUT kind eagerly -/

/-- C9: `MethodCaller.__setitem__` performs exactly one PUT invocation with
no failure-driven retry: PUT-REFERENCE when the assigned value (the last
argument) is an object reference, PUT-VALUE otherwise, the choice made
eagerly from the value's nature alone, and the invocation's result or error
passed through unchanged. -/
theorem C9_setItem_eager_kind (fo : ForeignObj) (m : MethodCaller)
    (args : List Value) (v : Value) (hlast : args.getLast? = some v) :
    MethodCaller.setItem fo m args
      = (fo.invoke m._id
           (if _is_object v then .propertyPutRef else .propertyPut) args,
         [.invoke m._id
           (if _is_object v then .propertyPutRef else .propertyPut) args]) := by
  have hd : args.getLastD .vNone = v := by
    rw [List.getLastD_eq_getLast?, hlast]
    rfl
  unfold MethodCaller.setItem
  rw [hd]
  by_cases hobj : _is_object v
  · simp [hobj]
  · simp [hobj]

/-- A foreign double for C9 whose invocations all succeed. -/
def foC9 : ForeignObj :=
  { getIDsOfNames := fun _ => 9
  , invoke := fun _ _ _ => .ok .vNone
  , enumItems := [] }

/-- C9 witness: assigning the object reference `vObj 3` at index `0` on a
bound member performs exactly one PUT-REFERENCE invocation. -/
theorem C9_setItem_eager_kind_witness :
    ([Value.vInt 0, Value.vObj 3].getLast? = some (Value.vObj 3)) ∧
    MethodCaller.setItem foC9 ⟨9⟩ [Value.vInt 0, Value.vObj 3]
      = (foC9.invoke 9
           (if _is_object (Value.vObj 3) then .propertyPutRef else .propertyPut)
           [Value.vInt 0, Value.vObj 3],
         [.invoke 9
           (if _is_object (Value.vObj 3) then .propertyPutRef else .propertyPut)
           [Value.vInt 0, Value.vObj 3]]) :=
  ⟨rfl, C9_setItem_eager_kind foC9 ⟨9⟩ [Value.vInt 0, Value.vObj 3]
          (Value.vObj 3) rfl⟩

/-! ## C5, C7, C10: enumeration-backed indexing and iteration -/

/-- Is this enumeration call a `Skip`? -/
def ECall.isSkip : ECall → Bool
  | .skip _ _ => true
  | _ => false

/-- A foreign double whose default enumerable capability yields `items`;
name resolution and invocation are immaterial for the enumeration claims. -/
def foEnum (items : List Value) : ForeignObj :=
  { getIDsOfNames := fun _ => 1
  , invoke := fun _ _ _ => .ok .vNone
  , enumItems := items }

theorem dispGetItem_one_acquire (fo : ForeignObj) (i : Int) :
    ((dispGetItem fo i).2).filter ECall.isAcquire = [.acquire] ∧
    ((dispGetItem fo i).2).head? = some .acquire := by
  unfold dispGetItem dispEnum
  by_cases hi : i > 0
  · rcases hsk : EnumVARIANT.Skip ⟨fo.enumItems⟩ i with ⟨hr, enum1⟩
    by_cases hhr : hr ≠ 0
    · simp [hi, hsk, hhr, ECall.isAcquire]
    · rcases hnx : enum1.Next1 with ⟨item, fetched, e'⟩
      cases fetched <;> simp [hi, hsk, hnx, hhr, ECall.isAcquire]
  · rcases hnx : EnumVARIANT.Next1 ⟨fo.enumItems⟩ with ⟨item, fetched, e'⟩
    cases fetched <;> simp [hi, hnx, ECall.isAcquire]

/-- C5: on a proxy whose default enumerable yields the 3-element sequence
`[A, B, C]`, `proxy[0]` returns `A`, `proxy[2]` returns `C`, and `proxy[3]`
raises `IndexError("index out of range")`; and every positional index access
acquires exactly one fresh enumerator, acquired before any `Skip` or `Next`
call. -/
theorem C5_indexing_via_enumeration :
    (∀ A B C : Value,
       (dispGetItem (foEnum [A, B, C]) 0).1 = .ok A ∧
       (dispGetItem (foEnum [A, B, C]) 2).1 = .ok C ∧
       (dispGetItem (foEnum [A, B, C]) 3).1 = .error "index out of range") ∧
    (∀ (fo : ForeignObj) (i : Int),
       ((dispGetItem fo i).2).filter ECall.isAcquire = [.acquire] ∧
       ((dispGetItem fo i).2).head? = some .acquire) :=
  ⟨fun _ _ _ => ⟨rfl, rfl, rfl⟩, fun fo i => dispGetItem_one_acquire fo i⟩

/-- C7: on a proxy whose enumerable yields `[A, B]`, beginning iteration
acquires one fresh enumerator positioned at the start; the iterator's
`next()` yields `A`, then `B`, and the third `next()` raises
`StopIteration` (normal termination), each `next()` making exactly one
foreign `Next` call; driving the whole for-loop protocol yields exactly
`[A, B]` with exactly three `Next` calls, the last being the exhaustion
signal after which the loop makes no further foreign calls.  Every
begin-iteration on any proxy acquires its own fresh full-sequence
enumerator, so concurrent iterations do not share position. -/
theorem C7_iteration_exhaustion (A B : Value) :
    dispIter (foEnum [A, B]) = (⟨⟨[A, B]⟩⟩, [.acquire]) ∧
    (⟨⟨[A, B]⟩⟩ : _Collection).next = (some A, ⟨⟨[B]⟩⟩, [.next true]) ∧
    (⟨⟨[B]⟩⟩ : _Collection).next = (some B, ⟨⟨[]⟩⟩, [.next true]) ∧
    (⟨⟨[]⟩⟩ : _Collection).next = (none, ⟨⟨[]⟩⟩, [.next false]) ∧
    runForLoop ⟨⟨[A, B]⟩⟩ = ([A, B], [.next true, .next true, .next false]) ∧
    (∀ fo : ForeignObj,
       (dispIter fo).1 = ⟨⟨fo.enumItems⟩⟩ ∧ (dispIter fo).2 = [.acquire]) :=
  ⟨rfl, rfl, rfl, rfl, rfl, fun _ => ⟨rfl, rfl⟩⟩

/-- C10: for every index less than or equal to zero (including every
negative index), `proxy[index]` performs no `Skip` call and returns the
first element of the freshly acquired enumerator, or raises
`IndexError("index out of range")` when the enumeration is empty—negative
indices are silently treated like index `0`. -/
theorem C10_nonpositive_index_no_skip (fo : ForeignObj) (i : Int)
    (hi : i ≤ 0) :
    ((dispGetItem fo i).2).filter ECall.isSkip = [] ∧
    (dispGetItem fo i).1
      = (match fo.enumItems with
         | [] => Except.error "index out of range"
         | x :: _ => Except.ok x) := by
  have hng : ¬ i > 0 := by omega
  unfold dispGetItem dispEnum
  rcases h : fo.enumItems with _ | ⟨x, xs⟩
  · simp [hng, h, EnumVARIANT.Next1, ECall.isSkip]
  · simp [hng, h, EnumVARIANT.Next1, ECall.isSkip]

/-- C10 witness: on a 1-element enumerable, `proxy[-5]` makes no `Skip`
call and returns the first element. -/
theorem C10_nonpositive_index_no_skip_witness :
    (-5 : Int) ≤ 0 ∧
    (((dispGetItem (foEnum [Value.vInt 1]) (-5)).2).filter ECall.isSkip = [] ∧
     (dispGetItem (foEnum [Value.vInt 1]) (-5)).1 = .ok (Value.vInt 1)) :=
  ⟨by decide, C10_nonpositive_index_no_skip (foEnum [Value.vInt 1]) (-5)
                (by decide)⟩

end ComtypesDynamic
